import Mathlib

/-!
Verification of the automation engine of the auto-reroller repository
(src/core/automation_engine.py), shallowly embedded in Lean 4.

Conventions of the embedding:
* Captured frames are abstract values (`Frame := Nat`).
* Wall-clock readings inside retry loops are modelled by an environment
  function from a progress counter to a `Nat` clock value; blocking calls
  (frame capture, nested action execution) advance the counter.
* Python float times that occur outside loops are modelled as `Rat`.
* Python truthiness of optional strings and numbers (`if timeout:` treats
  both `None` and `0` as false, `if timeout_state:` treats both `None` and
  the empty string as false) is modelled by `natTruthy` and `strTruthy`.
* Unbounded `while` loops are given explicit fuel and return `Option`
  results; `none` means the fuel ran out before the loop exited, so every
  theorem about a loop result is stated on `some` values, or proves
  termination outright from a strictly increasing clock.
* Nested `execute_action` calls made by compound actions (conditional
  branches, loop bodies) are abstracted as oracles `exec : Nat → Bool`
  giving the result of the n-th nested invocation.
-/

/-- Captured screen frames are abstract; only identity matters here. -/
abbrev Frame := Nat

/-- Python truthiness of an optional string: `None` and `""` are falsy. -/
def strTruthy : Option String → Bool
  | none => false
  | some s => decide (s ≠ "")

/-- Python truthiness of an optional number: `None` and `0` are falsy. -/
def natTruthy : Option Nat → Bool
  | none => false
  | some v => decide (v ≠ 0)

/-- The guard `if timeout and elapsed > timeout:` from the source,
with Python truthiness on `timeout`. -/
def timeoutHit (t : Option Nat) (elapsed : Nat) : Bool :=
  match t with
  | none => false
  | some v => decide (v ≠ 0) && decide (v < elapsed)

/-- The guard `if max_iterations and iteration >= max_iterations:` from the
loop action, with Python truthiness on `max_iterations`. -/
def maxIterHit (mi : Option Nat) (it : Nat) : Bool :=
  match mi with
  | none => false
  | some m => decide (m ≠ 0) && decide (m ≤ it)

/-- Mutable per-device state of `AutomationInstance`: the fields of
`instance_data` together with the attributes `device_id`,
`instance_number`, `current_action_index`, `current_state_start_time`
and `running`. -/
structure Instance where
  device_id : String
  instance_number : Nat
  current_state : String
  current_action_index : Nat
  current_state_start_time : Rat
  cycle_count : Nat
  session_count : Nat
  detected_items : List String
  account_id : Option String
  running : Bool
deriving Repr, DecidableEq

/-- `AutomationInstance.change_state` (automation_engine.py lines 123-135):
set the new state, restart the state entry clock, reset the action index. -/
def change_state (inst : Instance) (new_state : String) (now : Rat) : Instance :=
  { inst with
    current_state := new_state
    current_state_start_time := now
    current_action_index := 0 }

/-- `AutomationInstance.check_state_timeout` (lines 97-121): `base_timeout`
is the entry for the current state in `get_state_timeouts()` (absent =
`None`); a `None` or non-positive timeout never fires; otherwise the time
in state is compared strictly against `base_timeout * speed_multiplier`. -/
def check_state_timeout (base_timeout : Option Rat) (speed : Rat)
    (now start : Rat) : Bool :=
  let time_in_state := now - start
  match base_timeout with
  | none => false
  | some b => if b ≤ 0 then false else decide (time_in_state > b * speed)

/-- `AutomationInstance.handle_timeout` (lines 137-190). `timeout_state` is
`state_config.get('timeout_state')`, checked with Python truthiness;
`restartOk` is the result of `device_manager.restart_app`; `initial_state`
is `game.get_initial_state()`. Returns the updated instance and the
boolean result. -/
def handle_timeout (inst : Instance) (timeout_state : Option String)
    (restartOk : Bool) (initial_state : String) (now : Rat) :
    Instance × Bool :=
  if strTruthy timeout_state then
    (change_state inst (timeout_state.getD "") now, true)
  else if restartOk then
    let i1 := change_state inst initial_state now
    ({ i1 with
        current_state_start_time := now
        current_action_index := 0
        cycle_count := 0
        detected_items := []
        account_id := none }, true)
  else (inst, false)

/-- One record of the `instances` array written by
`AutomationEngine.save_state_to_file` (lines 1885-1917). -/
structure SavedInstance where
  device_id : String
  instance_number : Nat
  current_state : String
  session_count : Nat
  cycle_count : Nat
  detected_items : List String
  account_id : Option String
  current_action_index : Nat
  current_state_start_time : Rat
  running : Bool
deriving Repr, DecidableEq

/-- The `instance_state` dictionary built for one instance by
`save_state_to_file`. -/
def saveInstance (inst : Instance) : SavedInstance :=
  { device_id := inst.device_id
    instance_number := inst.instance_number
    current_state := inst.current_state
    session_count := inst.session_count
    cycle_count := inst.cycle_count
    detected_items := inst.detected_items
    account_id := inst.account_id
    current_action_index := inst.current_action_index
    current_state_start_time := inst.current_state_start_time
    running := inst.running }

/-- The matching loop of `AutomationEngine.create_instances`
(lines 2076-2083): find the first saved record whose `device_id` or
`instance_number` matches the device being created. -/
def findSavedInstance (saved : List SavedInstance) (device_id : String)
    (num : Nat) : Option SavedInstance :=
  match saved with
  | [] => none
  | s :: rest =>
    if s.device_id = device_id ∨ s.instance_number = num then some s
    else findSavedInstance rest device_id num

/-- The restore step of `create_instances` (lines 2085-2096): copy the
saved fields into the freshly created instance; the state entry clock is
reset to the current time. -/
def restoreInstance (fresh : Instance) (s : SavedInstance) (now : Rat) :
    Instance :=
  { fresh with
    current_state := s.current_state
    session_count := s.session_count
    cycle_count := s.cycle_count
    detected_items := s.detected_items
    account_id := s.account_id
    current_action_index := s.current_action_index
    current_state_start_time := now
    running := s.running }

/-- `create_instances` resume path for one device: match a saved record,
restore it if found, otherwise keep the fresh instance. -/
def createInstanceResumed (fresh : Instance) (saved : List SavedInstance)
    (now : Rat) : Instance :=
  match findSavedInstance saved fresh.device_id fresh.instance_number with
  | some s => restoreInstance fresh s now
  | none => fresh

/-- Environment for the Tap retry loop: `clock n` is the wall clock at the
head of the n-th iteration, `frame n` the result of the n-th
`get_screenshot()` call, and `tapRes n f` the result of the
detect-then-tap attempt (`execute_tap` or `execute_tap_with_likelihood`)
made at iteration n on frame f. -/
structure TapEnv where
  clock : Nat → Nat
  frame : Nat → Option Frame
  tapRes : Nat → Frame → Bool

/-- The Tap-with-timeout retry loop of `execute_action`
(automation_engine.py lines 502-528):
while the elapsed time is under the timeout, capture a fresh frame
(retrying on capture failure) and attempt the detect-then-tap; break on
success; when the while condition fails the else branch sets
`success = True`. Returns the result together with the number of loop
iterations executed, or `none` when the fuel runs out first. -/
def tapRetryLoop (env : TapEnv) (startT timeout : Nat) :
    Nat → Nat → Option (Bool × Nat)
  | 0, _ => none
  | fuel + 1, n =>
    if env.clock n - startT < timeout then
      match env.frame n with
      | none => tapRetryLoop env startT timeout fuel (n + 1)
      | some f =>
        if env.tapRes n f then some (true, n + 1)
        else tapRetryLoop env startT timeout fuel (n + 1)
    else
      some (true, n)

/-- The Tap action branch of `execute_action` when `timeout is not None`:
`tap_start_time = time.time()` then the retry loop. -/
def tapActionWithTimeout (env : TapEnv) (timeout fuel : Nat) :
    Option (Bool × Nat) :=
  tapRetryLoop env (env.clock 0) timeout fuel 0

/-- Environment for the Wait condition poll: `clock n` is the wall clock at
the head of the n-th iteration, `fresh n` the result of the n-th
`get_screenshot()` call, and `found f` whether the condition template is
detected in frame f (likelihood folded in). -/
structure WaitEnv where
  clock : Nat → Nat
  fresh : Nat → Option Frame
  found : Frame → Bool

/-- The `(timeout or 60)` default of the Wait poll: `None` and `0` fall
back to 60 seconds. -/
def effTimeout : Option Nat → Nat
  | none => 60
  | some t => if t = 0 then 60 else t

/-- The Wait-with-condition poll loop of `execute_action` (lines 626-638):
while elapsed time is under the effective timeout, take
`check_screenshot = screenshot if screenshot is not None else
self.get_screenshot()` and return `True` when the condition template is
detected; on loop exit return `False`. `provided` is the `screenshot`
parameter of `execute_action`; note that when it is not `None` the very
same frame is re-checked on every iteration. -/
def waitCondLoop (env : WaitEnv) (provided : Option Frame)
    (startT effT : Nat) : Nat → Nat → Option Bool
  | 0, _ => none
  | fuel + 1, n =>
    if env.clock n - startT < effT then
      let check_screenshot :=
        match provided with
        | some f => some f
        | none => env.fresh n
      match check_screenshot with
      | some f =>
        if env.found f then some true
        else waitCondLoop env provided startT effT fuel (n + 1)
      | none => waitCondLoop env provided startT effT fuel (n + 1)
    else
      some false

/-- The Wait branch of `execute_action` (lines 608-642): with a truthy
condition it runs the poll loop from `start_time = time.time()`;
otherwise it is `time.sleep(duration); return True`. -/
def waitAction (env : WaitEnv) (provided : Option Frame) (duration : Nat)
    (condition : Option String) (timeout : Option Nat) (fuel : Nat) :
    Option Bool :=
  if strTruthy condition then
    waitCondLoop env provided (env.clock 0) (effTimeout timeout) fuel 0
  else
    some true

/-- Environment for the Conditional branch executor: `clock n` is the wall
clock at the head of the n-th retry iteration, `frame n` the result of the
n-th `get_screenshot()` call inside the retry loop, and `exec n` the
result of the n-th nested `execute_action` invocation. A single progress
counter indexes all three. -/
structure CondEnv where
  clock : Nat → Nat
  frame : Nat → Option Frame
  exec : Nat → Bool

/-- The per-action retry loop of the Conditional branch executor
(automation_engine.py lines 780-812): retry one branch action until it
succeeds, bounded by the overall conditional timeout and by the optional
per-action timeout, both with Python truthiness; a failed fresh capture
just retries. Returns whether the action eventually succeeded, together
with the updated progress counter; `none` when the fuel runs out. -/
def condRetry (env : CondEnv) (timeout : Option Nat) (startT : Nat)
    (aT : Option Nat) (aStart : Nat) : Nat → Nat → Option (Bool × Nat)
  | 0, _ => none
  | fuel + 1, n =>
    if timeoutHit timeout (env.clock n - startT) then some (false, n)
    else if timeoutHit aT (env.clock n - aStart) then some (false, n)
    else
      match env.frame n with
      | none => condRetry env timeout startT aT aStart fuel (n + 1)
      | some _ =>
        if env.exec n then some (true, n + 1)
        else condRetry env timeout startT aT aStart fuel (n + 1)

/-- The outer loop over the selected branch of a Conditional action
(lines 766-821): before each branch action the overall timeout is checked
(break on hit), then the per-action retry loop runs. Each branch action is
abstracted to its own optional timeout field. Returns the list of
per-action outcomes (in order, one may be missing for actions skipped by
the overall-timeout break) and the final progress counter. -/
def condActions (env : CondEnv) (timeout : Option Nat) (startT : Nat) :
    List (Option Nat) → Nat → Nat → Option (List Bool × Nat)
  | [], _, n => some ([], n)
  | aT :: rest, fuel, n =>
    if timeoutHit timeout (env.clock n - startT) then some ([], n)
    else
      match condRetry env timeout startT aT (env.clock n) fuel n with
      | none => none
      | some (ok, n1) =>
        match condActions env timeout startT rest fuel n1 with
        | none => none
        | some (outs, n2) => some (ok :: outs, n2)

/-- The Conditional branch of `execute_action` (lines 720-841).
`screenshot0` is `check_screenshot` (the provided screenshot or a fresh
capture; `none` means both failed, returning `False`); `detectCond f`
decides the condition template on frame f (likelihood folded in). The
selected branch and target state are chosen by the condition; the branch
actions run under `condActions`; `successful_actions` is tallied from the
outcomes; the overall result is `successful_actions > 0 or
len(actions_to_execute) == 0`; a truthy target state changes state and
forces the result `True`. Returns
(result, per-action outcomes, whether a state jump happened). -/
def conditionalAction (env : CondEnv) (screenshot0 : Option Frame)
    (detectCond : Frame → Bool) (ifTrue ifFalse : List (Option Nat))
    (timeout : Option Nat) (ifTrueState ifFalseState : Option String)
    (fuel : Nat) : Option (Bool × List Bool × Bool) :=
  match screenshot0 with
  | none => some (false, [], false)
  | some f =>
    let condMet := detectCond f
    let actions_to_execute := if condMet then ifTrue else ifFalse
    let target_state := if condMet then ifTrueState else ifFalseState
    match condActions env timeout (env.clock 0) actions_to_execute fuel 0 with
    | none => none
    | some (outs, _) =>
      let successful_actions := outs.countP (fun b => b)
      let action_success :=
        decide (0 < successful_actions) ||
          decide (actions_to_execute.length = 0)
      if strTruthy target_state then some (true, outs, true)
      else some (action_success, outs, false)

/-- Environment for the Loop action: `clock` is the wall clock indexed by
total progress (capture count plus nested-execution count), `shot c` the
result of the c-th `get_screenshot()` call, `exitCond f` the detection of
the exit-condition template on frame f, and `exec e` the result of the
e-th nested `execute_action` call on a body action. -/
structure LoopEnv where
  clock : Nat → Nat
  shot : Nat → Option Frame
  exitCond : Frame → Bool
  exec : Nat → Bool

/-- The body of one Loop iteration (lines 919-946): for each body action,
first check the loop timeout (break on hit, skipping the rest of the
body), then execute the action; in single-screenshot mode with a captured
frame the pinned-screenshot attribute `_current_screenshot` is saved, set
to the loop frame, and restored (or deleted, when previously unset) in a
`finally` block; a failed action returns `False` for the whole loop
action at once. Result: (`False` iff a body action failed, exec counter,
capture counter, pinned screenshot attribute). -/
def loopBodyExec (env : LoopEnv) (timeout : Option Nat) (startT : Nat)
    (loop_screenshot : Option Frame) (useSingle : Bool) :
    List Unit → Nat → Nat → Option Frame → Bool × Nat × Nat × Option Frame
  | [], e, c, pinned => (true, e, c, pinned)
  | _ :: rest, e, c, pinned =>
    if timeoutHit timeout (env.clock (e + c) - startT) then (true, e, c, pinned)
    else if useSingle && loop_screenshot.isSome then
      let original := pinned
      let _pinnedDuring := loop_screenshot
      let ok := env.exec e
      let restored : Option Frame :=
        match original with
        | some o => some o
        | none => none
      if ok then
        loopBodyExec env timeout startT loop_screenshot useSingle rest
          (e + 1) c restored
      else (false, e + 1, c, restored)
    else
      if env.exec e then
        loopBodyExec env timeout startT loop_screenshot useSingle rest
          (e + 1) c pinned
      else (false, e + 1, c, pinned)

/-- The main Loop action loop of `execute_action` (lines 865-957), with
explicit fuel on the number of outer iterations. State: iteration count,
exec counter, capture counter, pinned screenshot attribute. Checks in
source order: max iterations, loop timeout, single-screenshot capture
(capture failure returns `False`), exit condition (on the iteration frame
in single mode, else on a fresh capture; a failed capture skips the
check), then the body; after the body the timeout is re-checked before
the next iteration. Every break exits with result `True`. Returns
(result, iterations, exec counter, capture counter, pinned attribute). -/
def loopExec (env : LoopEnv) (timeout : Option Nat) (startT : Nat)
    (maxIter : Option Nat) (cond : Option String) (useSingle : Bool)
    (acts : List Unit) :
    Nat → Nat → Nat → Nat → Option Frame →
      Option (Bool × Nat × Nat × Nat × Option Frame)
  | 0, _, _, _, _ => none
  | fuel + 1, it, e, c, pinned =>
    if maxIterHit maxIter it then some (true, it, e, c, pinned)
    else if timeoutHit timeout (env.clock (e + c) - startT) then
      some (true, it, e, c, pinned)
    else
      let shotRes := if useSingle then env.shot c else none
      let c1 := if useSingle then c + 1 else c
      if useSingle && shotRes.isNone then some (false, it, e, c1, pinned)
      else
        let condRes : Bool × Nat :=
          if strTruthy cond then
            if useSingle then
              (match shotRes with
               | some f => env.exitCond f
               | none => false, c1)
            else
              match env.shot c1 with
              | some f => (env.exitCond f, c1 + 1)
              | none => (false, c1 + 1)
          else (false, c1)
        if condRes.1 then some (true, it, e, condRes.2, pinned)
        else
          match loopBodyExec env timeout startT shotRes useSingle acts
              e condRes.2 pinned with
          | (false, e1, c2, p1) => some (false, it, e1, c2, p1)
          | (true, e1, c2, p1) =>
            if timeoutHit timeout (env.clock (e1 + c2) - startT) then
              some (true, it, e1, c2, p1)
            else
              loopExec env timeout startT maxIter cond useSingle acts fuel
                (it + 1) e1 c2 p1

/-- The Loop branch of `execute_action`: `start_time = time.time()` then
the main loop with all counters at zero; `pinned` is the value of the
`_current_screenshot` attribute on entry (`none` when unset). -/
def loopAction (env : LoopEnv) (timeout maxIter : Option Nat)
    (cond : Option String) (useSingle : Bool) (acts : List Unit)
    (fuel : Nat) (pinned : Option Frame) :
    Option (Bool × Nat × Nat × Nat × Option Frame) :=
  loopExec env timeout (env.clock 0) maxIter cond useSingle acts fuel 0 0 0
    pinned

/-- One entry of a state action list as seen by the per-state execution
loop of `run_automation` (lines 1455-1538): either an action that leaves
the instance state alone and returns the given result, or a Conditional
action with a truthy target state, which calls `change_state` and then
returns `True` (lines 830-835). -/
inductive TickAction
  | plain (succeeds : Bool)
  | condJump (target : String)
deriving Repr, DecidableEq

/-- Execution of one entry of a state action list against the instance. -/
def execTickAction (inst : Instance) (now : Rat) :
    TickAction → Bool × Instance
  | .plain ok => (ok, inst)
  | .condJump target => (true, change_state inst target now)

/-- The per-state action execution loop of `run_automation`
(lines 1455-1504), run on the sub-list of actions from the current index:
on failure break and keep the index at the failed action; on success set
`current_action_index = i + 1`. The returned trace records the value of
`current_action_index` after every assignment to it made while the list
executes (both the assignments of this loop and any reset performed by a
`change_state` inside an executed Conditional action). -/
def runActionsFrom (now : Rat) :
    List TickAction → Nat → Instance → Bool × Instance × List Nat
  | [], _, inst => (true, inst, [])
  | a :: rest, i, inst =>
    match a with
    | .plain ok =>
      if ok then
        let inst1 := { inst with current_action_index := i + 1 }
        let r := runActionsFrom now rest (i + 1) inst1
        (r.1, r.2.1, (i + 1) :: r.2.2)
      else (false, inst, [])
    | .condJump target =>
      let instJ := change_state inst target now
      let inst1 := { instJ with current_action_index := i + 1 }
      let r := runActionsFrom now rest (i + 1) inst1
      (r.1, r.2.1, instJ.current_action_index :: (i + 1) :: r.2.2)

/-- The whole action-list pass of one `run_automation` tick for the
current state (lines 1449-1538): execute from the persisted index and, if
every action succeeded, reset the index to 0. Returns
(action_success, updated instance, index trace). -/
def runStateActions (inst : Instance) (now : Rat)
    (actions : List TickAction) : Bool × Instance × List Nat :=
  let start := inst.current_action_index
  let r := runActionsFrom now (actions.drop start) start inst
  if r.1 then
    (r.1, { r.2.1 with current_action_index := 0 }, r.2.2)
  else r

/-- Concrete Tap environment: unit clock ticks, every capture succeeds,
every detect-then-tap attempt fails. -/
def wTapEnv : TapEnv :=
  { clock := fun n => n
    frame := fun _ => some 0
    tapRes := fun _ _ => false }

/-- Concrete Wait environment: unit clock ticks, every fresh capture
returns frame 1, and the condition template is detected exactly on
frame 1 (so never on the stale provided frame 0). -/
def wWaitEnv : WaitEnv :=
  { clock := fun n => n
    fresh := fun _ => some 1
    found := fun f => decide (f = 1) }

/-- Concrete Conditional environment: unit clock ticks, every capture
succeeds, and each nested action fails on its first attempt and succeeds
on the retry. -/
def wCondEnv : CondEnv :=
  { clock := fun n => n
    frame := fun _ => some 0
    exec := fun n => n % 2 == 1 }

/-- Concrete condition detector that always matches. -/
def wDetect : Frame → Bool := fun _ => true

/-- Concrete branch of two actions without per-action timeouts. -/
def wActs : List (Option Nat) := [none, none]

/-- Concrete Loop environment where every nested action succeeds. -/
def wLoopEnv : LoopEnv :=
  { clock := fun n => n
    shot := fun _ => some 7
    exitCond := fun _ => false
    exec := fun _ => true }

/-- Concrete Loop environment whose nested actions succeed three times and
then fail, under a frozen clock. -/
def wLoopEnvF : LoopEnv :=
  { clock := fun _ => 0
    shot := fun _ => some 7
    exitCond := fun _ => false
    exec := fun e => decide (e < 3) }

/-- Concrete instance used in the action-index scenarios. -/
def cexInst : Instance :=
  { device_id := "emulator-5554"
    instance_number := 1
    current_state := "A"
    current_action_index := 0
    current_state_start_time := 0
    cycle_count := 0
    session_count := 0
    detected_items := []
    account_id := none
    running := true }

/-- Concrete instance with non-trivial progress, used in the snapshot
round trip. -/
def wInstSaved : Instance :=
  { device_id := "emulator-5554"
    instance_number := 1
    current_state := "pulling_gacha"
    current_action_index := 2
    current_state_start_time := 100
    cycle_count := 5
    session_count := 3
    detected_items := ["ssr_card", "sr_card"]
    account_id := some "acct-42"
    running := true }

/-- Freshly created instance for the same device, before restore. -/
def wInstFresh : Instance :=
  { device_id := "emulator-5554"
    instance_number := 1
    current_state := "initial"
    current_action_index := 0
    current_state_start_time := 200
    cycle_count := 0
    session_count := 0
    detected_items := []
    account_id := none
    running := true }

/-- Claim C2 as stated is false at the boundary: with timeout T = 1 and
speed multiplier M = 1, a wall-clock time in state of exactly T times M
(now = 1, start = 0) does not fire the watchdog, although the claim says
it fires whenever the time in state is at least T times M. -/
theorem check_state_timeout_cex :
    check_state_timeout (some 1) 1 1 0 = false ∧ (1 : Rat) - 0 ≥ 1 * 1 := by
  constructor
  · norm_num [check_state_timeout]
  · norm_num

/-- Claim C2 (amended): for a configured timeout T greater than 0 and speed
multiplier M, check_state_timeout reports a timeout exactly when the
wall-clock time in the current state is strictly greater than T times M;
for an absent or non-positive timeout it never reports one. -/
theorem check_state_timeout_amended (T M now start : Rat) :
    (0 < T →
      (check_state_timeout (some T) M now start = true ↔
        now - start > T * M)) ∧
    check_state_timeout none M now start = false ∧
    (T ≤ 0 → check_state_timeout (some T) M now start = false) := by
  refine ⟨fun hT => ?_, rfl, fun hT => ?_⟩
  · simp [check_state_timeout, not_le.mpr hT]
  · simp [check_state_timeout, hT]

/-- Witness for C2: a state stuck for 2 seconds with timeout 1 and
multiplier 1 fires the watchdog. -/
theorem check_state_timeout_amended_witness :
    check_state_timeout (some 1) 1 2 0 = true :=
  ((check_state_timeout_amended 1 1 2 0).1 (by norm_num)).mpr (by norm_num)

/-- Claim C4: saving an instance with save_state_to_file and restoring it
in create_instances for the same device identity (the matching loop finds
its saved record by device id or instance number) reproduces identical
current_state, action index, session_count, cycle_count, detected_items
and account_id. -/
theorem save_restore_roundtrip (inst fresh : Instance)
    (saved : List SavedInstance) (now : Rat)
    (hfind : findSavedInstance saved fresh.device_id fresh.instance_number =
      some (saveInstance inst)) :
    (createInstanceResumed fresh saved now).current_state =
        inst.current_state ∧
    (createInstanceResumed fresh saved now).current_action_index =
        inst.current_action_index ∧
    (createInstanceResumed fresh saved now).session_count =
        inst.session_count ∧
    (createInstanceResumed fresh saved now).cycle_count = inst.cycle_count ∧
    (createInstanceResumed fresh saved now).detected_items =
        inst.detected_items ∧
    (createInstanceResumed fresh saved now).account_id = inst.account_id := by
  unfold createInstanceResumed
  rw [hfind]
  simp [restoreInstance, saveInstance]

/-- Witness for C4: a concrete instance with non-trivial progress survives
the snapshot round trip on the six fields. -/
theorem save_restore_roundtrip_witness :
    (createInstanceResumed wInstFresh [saveInstance wInstSaved] 300).current_state =
        wInstSaved.current_state ∧
    (createInstanceResumed wInstFresh [saveInstance wInstSaved] 300).current_action_index =
        wInstSaved.current_action_index ∧
    (createInstanceResumed wInstFresh [saveInstance wInstSaved] 300).session_count =
        wInstSaved.session_count ∧
    (createInstanceResumed wInstFresh [saveInstance wInstSaved] 300).cycle_count =
        wInstSaved.cycle_count ∧
    (createInstanceResumed wInstFresh [saveInstance wInstSaved] 300).detected_items =
        wInstSaved.detected_items ∧
    (createInstanceResumed wInstFresh [saveInstance wInstSaved] 300).account_id =
        wInstSaved.account_id :=
  save_restore_roundtrip wInstSaved wInstFresh [saveInstance wInstSaved] 300
    (by simp [findSavedInstance, wInstFresh, wInstSaved, saveInstance])

/-- Claim C5: when the watchdog fires in a state that declares a
timeout_state, handle_timeout transitions the instance there (reporting
success); in a state without one it restarts the app and, on restart
success, returns the instance to the initial state of the graph with
action index 0 and the per-session counters (cycle count, detected items,
account id) reset. -/
theorem handle_timeout_spec (inst : Instance) (ts : Option String)
    (rOk : Bool) (init s : String) (now : Rat) :
    (ts = some s → s ≠ "" →
      handle_timeout inst ts rOk init now = (change_state inst s now, true)) ∧
    (strTruthy ts = false → rOk = true →
      (handle_timeout inst ts rOk init now).2 = true ∧
      (handle_timeout inst ts rOk init now).1.current_state = init ∧
      (handle_timeout inst ts rOk init now).1.current_action_index = 0 ∧
      (handle_timeout inst ts rOk init now).1.cycle_count = 0 ∧
      (handle_timeout inst ts rOk init now).1.detected_items = [] ∧
      (handle_timeout inst ts rOk init now).1.account_id = none) := by
  refine ⟨fun hts hs => ?_, fun hts hr => ?_⟩
  · subst hts
    simp [handle_timeout, strTruthy, hs]
  · subst hr
    simp [handle_timeout, hts, change_state]

/-- Witness for C5: a timeout in a state with timeout_state "recover"
jumps there. -/
theorem handle_timeout_spec_witness :
    handle_timeout cexInst (some "recover") true "init" 0 =
      (change_state cexInst "recover" 0, true) :=
  (handle_timeout_spec cexInst (some "recover") true "init" "recover" 0).1
    rfl (by decide)

/-- Helper for C1: with a strictly increasing clock and no successful
detect-then-tap attempt, the Tap retry loop always reaches the timeout
branch and reports success, given fuel exceeding the remaining time. -/
theorem tapRetryLoop_timeout_fail_open (env : TapEnv) (T : Nat)
    (hmono : ∀ m, env.clock m < env.clock (m + 1))
    (hfail : ∀ n f, env.tapRes n f = false) :
    ∀ fuel n, env.clock 0 ≤ env.clock n →
      T - (env.clock n - env.clock 0) < fuel →
      ∃ k, tapRetryLoop env (env.clock 0) T fuel n = some (true, k) ∧
        n ≤ k := by
  intro fuel
  induction fuel with
  | zero => intro n _ h2; omega
  | succ fuel ih =>
    intro n h1 h2
    by_cases hc : env.clock n - env.clock 0 < T
    · have hstep : env.clock n < env.clock (n + 1) := hmono n
      have h1a : env.clock 0 ≤ env.clock (n + 1) :=
        le_trans h1 (le_of_lt hstep)
      have h2a : T - (env.clock (n + 1) - env.clock 0) < fuel := by omega
      cases hf : env.frame n with
      | none =>
        obtain ⟨k, hk, hnk⟩ := ih (n + 1) h1a h2a
        exact ⟨k, by simp [tapRetryLoop, hc, hf, hk], by omega⟩
      | some f =>
        obtain ⟨k, hk, hnk⟩ := ih (n + 1) h1a h2a
        exact ⟨k, by simp [tapRetryLoop, hc, hf, hfail n f, hk], by omega⟩
    · exact ⟨n, by simp [tapRetryLoop, hc], le_refl n⟩

/-- Claim C1: for a Tap action with timeout T for which no detect-then-tap
attempt succeeds (each attempt n works on its own freshly captured frame
env.frame n, by construction of tapRetryLoop), execute_action keeps
retrying until T elapses and then returns True (fail-open), making at
least one attempt when T is positive. -/
theorem tap_timeout_fail_open (env : TapEnv) (T : Nat)
    (hmono : ∀ m, env.clock m < env.clock (m + 1))
    (hfail : ∀ n f, env.tapRes n f = false) :
    ∃ k, tapActionWithTimeout env T (T + 1) = some (true, k) ∧
      (0 < T → 1 ≤ k) := by
  unfold tapActionWithTimeout
  by_cases hT : 0 < T
  · have h01 : env.clock 0 < env.clock 1 := by simpa using hmono 0
    have h1 : env.clock 0 ≤ env.clock 1 := le_of_lt h01
    have h2 : T - (env.clock 1 - env.clock 0) < T := by omega
    obtain ⟨k, hk, h1k⟩ :=
      tapRetryLoop_timeout_fail_open env T hmono hfail T 1 h1 h2
    refine ⟨k, ?_, fun _ => h1k⟩
    cases hf : env.frame 0 with
    | none => simp [tapRetryLoop, Nat.sub_self, hT, hf, hk]
    | some f => simp [tapRetryLoop, Nat.sub_self, hT, hf, hfail 0 f, hk]
  · have hT0 : T = 0 := by omega
    subst hT0
    exact ⟨0, by simp [tapRetryLoop], fun h => absurd h (by omega)⟩

/-- Witness for C1: with unit clock ticks, available frames and attempts
that never succeed, a Tap with timeout 2 returns success. -/
theorem tap_timeout_fail_open_witness :
    tapActionWithTimeout wTapEnv 2 3 = some (true, 2) ∧
      ∃ k, tapActionWithTimeout wTapEnv 2 3 = some (true, k) ∧
        (0 < 2 → 1 ≤ k) :=
  ⟨by decide,
    tap_timeout_fail_open wTapEnv 2 (fun m => Nat.lt_succ_self m)
      (fun _ _ => rfl)⟩

/-- The effective Wait timeout is always positive (`timeout or 60`). -/
theorem effTimeout_pos (t : Option Nat) : 0 < effTimeout t := by
  cases t with
  | none => simp [effTimeout]
  | some v =>
    cases v with
    | zero => simp [effTimeout]
    | succ w => simp [effTimeout]

/-- Helper for C6: with a provided screenshot whose frame does not show
the condition template, the poll loop re-checks that same frame forever
and can only exit with `False`. -/
theorem waitCondLoop_stale_frame (env : WaitEnv) (f : Frame)
    (hf : env.found f = false) :
    ∀ fuel n startT effT b,
      waitCondLoop env (some f) startT effT fuel n = some b → b = false := by
  intro fuel
  induction fuel with
  | zero => intro n startT effT b h; simp [waitCondLoop] at h
  | succ fuel ih =>
    intro n startT effT b h
    by_cases hc : env.clock n - startT < effT
    · simp only [waitCondLoop, if_pos hc, hf] at h
      simp only [Bool.false_eq_true, if_false] at h
      exact ih (n + 1) startT effT b h
    · simp only [waitCondLoop, if_neg hc, Option.some.injEq] at h
      exact h.symm

/-- Helper for C6: with no provided screenshot, a `True` result of the
poll loop certifies that some freshly captured frame showed the
condition template. -/
theorem waitCondLoop_fresh_certifies (env : WaitEnv) :
    ∀ fuel n startT effT,
      waitCondLoop env none startT effT fuel n = some true →
      ∃ m f, env.fresh m = some f ∧ env.found f = true := by
  intro fuel
  induction fuel with
  | zero => intro n startT effT h; simp [waitCondLoop] at h
  | succ fuel ih =>
    intro n startT effT h
    by_cases hc : env.clock n - startT < effT
    · simp only [waitCondLoop, if_pos hc] at h
      cases hm : env.fresh n with
      | none =>
        rw [hm] at h
        exact ih (n + 1) startT effT h
      | some f =>
        rw [hm] at h
        by_cases hfnd : env.found f = true
        · exact ⟨n, f, hm, hfnd⟩
        · simp only [hfnd] at h
          simp only [Bool.false_eq_true, if_false] at h
          exact ih (n + 1) startT effT h
    · simp only [waitCondLoop, if_neg hc, Option.some.injEq] at h
      exact absurd h.symm (by simp)

/-- Claim C6 as stated is false: a Wait with condition template and a
provided (pinned) screenshot does not poll freshly captured frames. Here
every fresh capture would return frame 1, which shows the template, yet
the Wait re-checks the stale provided frame 0 on every attempt and times
out with `False`. -/
theorem wait_fresh_frame_cex :
    waitAction wWaitEnv (some 0) 0 (some "x") (some 2) 10 = some false ∧
      wWaitEnv.fresh 0 = some 1 ∧ wWaitEnv.found 1 = true := by
  exact ⟨by decide, by decide, by decide⟩

/-- Claim C6 (amended): for a Wait action with a condition template,
execute_action polls the provided screenshot when one was passed (so the
result is exactly whether that single frame shows the template), and
otherwise polls with a freshly captured frame on each attempt, in which
case a `True` result certifies that some freshly captured frame showed
the template; for a Wait action without a condition it performs a pure
delay of the given duration and returns `True`. -/
theorem wait_action_amended (env : WaitEnv) (provided : Option Frame)
    (dur : Nat) (cond : String) (timeout : Option Nat) (fuel : Nat)
    (hcond : cond ≠ "") :
    (∀ f b, waitAction env (some f) dur (some cond) timeout fuel = some b →
        b = env.found f) ∧
    (waitAction env none dur (some cond) timeout fuel = some true →
        ∃ m f, env.fresh m = some f ∧ env.found f = true) ∧
    waitAction env provided dur none timeout fuel = some true := by
  have hst : strTruthy (some cond) = true := by simp [strTruthy, hcond]
  refine ⟨fun f b h => ?_, fun h => ?_, rfl⟩
  · rw [waitAction, hst] at h
    simp only [if_true] at h
    cases hfnd : env.found f with
    | false => exact waitCondLoop_stale_frame env f hfnd fuel 0 _ _ b h
    | true =>
      cases fuel with
      | zero => simp [waitCondLoop] at h
      | succ fuel =>
        have hT := effTimeout_pos timeout
        simp only [waitCondLoop, Nat.sub_self, if_pos hT, hfnd, if_true,
          Option.some.injEq] at h
        exact h.symm
  · rw [waitAction, hst] at h
    simp only [if_true] at h
    exact waitCondLoop_fresh_certifies env fuel 0 _ _ h

/-- Witness for C6: a Wait without condition is a pure delay returning
success. -/
theorem wait_action_amended_witness :
    waitAction wWaitEnv (some 0) 3 none (some 2) 10 = some true :=
  (wait_action_amended wWaitEnv (some 0) 3 "x" (some 2) 10 (by decide)).2.2

/-- Claim C7: for a Conditional action with an available screenshot whose
selected branch names no (truthy) target state, execute_action returns
True exactly when at least one action of the selected branch succeeded or
the selected branch has an empty action list. -/
theorem conditional_no_jump_result (env : CondEnv) (f : Frame)
    (detectCond : Frame → Bool) (ifTrue ifFalse : List (Option Nat))
    (timeout : Option Nat) (tState fState : Option String) (fuel : Nat)
    (b : Bool) (outs : List Bool) (j : Bool)
    (hsel : strTruthy (if detectCond f then tState else fState) = false)
    (h : conditionalAction env (some f) detectCond ifTrue ifFalse timeout
      tState fState fuel = some (b, outs, j)) :
    b = true ↔
      (true ∈ outs ∨ (if detectCond f then ifTrue else ifFalse) = []) := by
  simp only [conditionalAction] at h
  cases hca : condActions env timeout (env.clock 0)
      (if detectCond f then ifTrue else ifFalse) fuel 0 with
  | none => rw [hca] at h; exact absurd h (by simp)
  | some r =>
    obtain ⟨outs0, n0⟩ := r
    rw [hca, hsel] at h
    simp only [Bool.false_eq_true, if_false, Option.some.injEq,
      Prod.mk.injEq] at h
    obtain ⟨hb, houts, -⟩ := h
    subst houts
    rw [← hb]
    simp [List.countP_pos_iff, List.length_eq_zero]

/-- Witness for C7: with two branch actions that each succeed on a retry,
the conditional reports success and the equivalence holds. -/
theorem conditional_no_jump_result_witness :
    (true = true ↔
      (true ∈ [true, true] ∨
        (if wDetect 5 then wActs else ([] : List (Option Nat))) = [])) :=
  conditional_no_jump_result wCondEnv 5 wDetect wActs [] none none none 10
    true [true, true] false (by decide) (by decide)

/-- Helper for C8: with no loop timeout, normal (non-pinned) screenshot
mode and every nested action succeeding, the loop body executes each of
its actions exactly once. -/
theorem loopBodyExec_all_ok (env : LoopEnv) (startT : Nat)
    (hexec : ∀ k, env.exec k = true) :
    ∀ (acts : List Unit) (e c : Nat) (p : Option Frame),
      loopBodyExec env none startT none false acts e c p =
        (true, e + acts.length, c, p) := by
  intro acts
  induction acts with
  | nil => intro e c p; simp [loopBodyExec]
  | cons a rest ih =>
    intro e c p
    simp only [loopBodyExec, timeoutHit]
    simp [hexec e, ih (e + 1) c p]
    omega

/-- Helper for C8: one full iteration of a Loop action with
max_iterations 3, no exit condition, no timeout and an all-succeeding
body advances the iteration counter and runs the body once. -/
theorem loopExec_step_all_ok (env : LoopEnv) (startT : Nat)
    (acts : List Unit) (hexec : ∀ k, env.exec k = true)
    (m it e : Nat) (p : Option Frame) (hit : it < 3) :
    loopExec env none startT (some 3) none false acts (m + 1) it e 0 p =
      loopExec env none startT (some 3) none false acts m (it + 1)
        (e + acts.length) 0 p := by
  have hmi : maxIterHit (some 3) it = false := by
    simp only [maxIterHit, Bool.and_eq_false_iff, decide_eq_false_iff_not]
    omega
  simp only [loopExec]
  rw [hmi]
  simp [timeoutHit, strTruthy, loopBodyExec_all_ok env startT hexec]

/-- Claim C8: a Loop action with max_iterations 3, no exit condition, no
timeout and a body all of whose actions succeed on every attempt runs the
body exactly 3 times (each of the three iterations executes every body
action once, totalling 3 times the body length nested executions) and
then returns True. -/
theorem loop_three_iterations (env : LoopEnv) (acts : List Unit)
    (p : Option Frame) (fuel : Nat) (hexec : ∀ k, env.exec k = true)
    (hfuel : 4 ≤ fuel) :
    loopAction env none (some 3) none false acts fuel p =
      some (true, 3, 3 * acts.length, 0, p) := by
  obtain ⟨m, rfl⟩ : ∃ m, fuel = m + 4 := ⟨fuel - 4, by omega⟩
  unfold loopAction
  rw [show m + 4 = (m + 3) + 1 from rfl,
    loopExec_step_all_ok env (env.clock 0) acts hexec (m + 3) 0 0 p
      (by omega)]
  rw [show m + 3 = (m + 2) + 1 from rfl,
    loopExec_step_all_ok env (env.clock 0) acts hexec (m + 2) 1
      (0 + acts.length) p (by omega)]
  rw [show m + 2 = (m + 1) + 1 from rfl,
    loopExec_step_all_ok env (env.clock 0) acts hexec (m + 1) 2
      (0 + acts.length + acts.length) p (by omega)]
  have hmi : maxIterHit (some 3) 3 = true := by simp [maxIterHit]
  rw [show (2 : Nat) + 1 = 3 from rfl]
  simp only [loopExec, hmi, if_true]
  rw [show 0 + acts.length + acts.length + acts.length =
    3 * acts.length from by omega]

/-- Witness for C8: a two-action body runs 3 times (6 nested executions)
and the loop returns success. -/
theorem loop_three_iterations_witness :
    loopAction wLoopEnv none (some 3) none false [(), ()] 10 none =
      some (true, 3, 6, 0, none) := by
  have h := loop_three_iterations wLoopEnv [(), ()] none 10 (fun _ => rfl)
    (by omega)
  simpa using h

/-- Claim C9: in single-screenshot mode the pinned-screenshot override
(_current_screenshot) is restored to its previous value, or cleared when
it was previously unset, on every exit path of each body-action
execution, including the path where a body action fails: whatever the
body actions do, the pinned attribute after the body equals the attribute
before it. -/
theorem loop_pinned_scoped_restore (env : LoopEnv) (timeout : Option Nat)
    (startT : Nat) (f : Frame) (acts : List Unit) (e c : Nat)
    (p : Option Frame) :
    (loopBodyExec env timeout startT (some f) true acts e c p).2.2.2 = p := by
  induction acts generalizing e c p with
  | nil => rfl
  | cons a rest ih =>
    by_cases ht : timeoutHit timeout (env.clock (e + c) - startT) = true
    · simp [loopBodyExec, ht]
    · cases p with
      | none =>
        cases hx : env.exec e with
        | true => simpa [loopBodyExec, ht, hx] using ih (e + 1) c none
        | false => simp [loopBodyExec, ht, hx]
      | some o =>
        cases hx : env.exec e with
        | true => simpa [loopBodyExec, ht, hx] using ih (e + 1) c (some o)
        | false => simp [loopBodyExec, ht, hx]

/-- Helper for C10: when every nested execution before index k succeeds
and the k-th fails, the loop body either finishes with its exec counter
still at most k (success, possibly short of k because of timeout skips),
or fails exactly at the k-th execution, leaving the counter at k + 1. -/
theorem loopBodyExec_exec_bound (env : LoopEnv) (timeout : Option Nat)
    (startT : Nat) (ls : Option Frame) (us : Bool) (k : Nat)
    (hlt : ∀ j, j < k → env.exec j = true) (hk : env.exec k = false) :
    ∀ (acts : List Unit) (e c : Nat) (p : Option Frame), e ≤ k →
      ((loopBodyExec env timeout startT ls us acts e c p).1 = true →
        (loopBodyExec env timeout startT ls us acts e c p).2.1 ≤ k) ∧
      ((loopBodyExec env timeout startT ls us acts e c p).1 = false →
        (loopBodyExec env timeout startT ls us acts e c p).2.1 = k + 1) := by
  intro acts
  induction acts with
  | nil =>
    intro e c p he
    exact ⟨fun _ => he, fun hf => by simp [loopBodyExec] at hf⟩
  | cons a rest ih =>
    intro e c p he
    by_cases ht : timeoutHit timeout (env.clock (e + c) - startT) = true
    · refine ⟨fun _ => ?_, fun hf => ?_⟩
      · simpa [loopBodyExec, ht] using he
      · simp [loopBodyExec, ht] at hf
    · rcases Nat.lt_or_ge e k with hek | hek
      · have hx : env.exec e = true := hlt e hek
        by_cases hs : (us && ls.isSome) = true
        · simpa [loopBodyExec, ht, hs, hx] using
            ih (e + 1) c (match p with | some o => some o | none => none)
              (by omega)
        · simpa [loopBodyExec, ht, hs, hx] using ih (e + 1) c p (by omega)
      · have hek2 : e = k := by omega
        subst hek2
        by_cases hs : (us && ls.isSome) = true
        · refine ⟨fun htr => ?_, fun _ => ?_⟩
          · simp [loopBodyExec, ht, hs, hk] at htr
          · simp [loopBodyExec, ht, hs, hk]
        · refine ⟨fun htr => ?_, fun _ => ?_⟩
          · simp [loopBodyExec, ht, hs, hk] at htr
          · simp [loopBodyExec, ht, hs, hk]

/-- Helper for C10: over a whole Loop run, when every nested execution
before index k succeeds and the k-th fails, either the run exits without
ever reaching the k-th nested execution, or it returns False immediately
at the k-th one, with no further nested executions. -/
theorem loopExec_exec_bound (env : LoopEnv) (timeout maxIter : Option Nat)
    (cond : Option String) (us : Bool) (acts : List Unit) (startT k : Nat)
    (hlt : ∀ j, j < k → env.exec j = true) (hk : env.exec k = false) :
    ∀ (fuel it e c : Nat) (p : Option Frame) (b : Bool) (it2 e2 c2 : Nat)
      (p2 : Option Frame), e ≤ k →
      loopExec env timeout startT maxIter cond us acts fuel it e c p =
        some (b, it2, e2, c2, p2) →
      e2 ≤ k ∨ (b = false ∧ e2 = k + 1) := by
  intro fuel
  induction fuel with
  | zero =>
    intro it e c p b it2 e2 c2 p2 he h
    simp [loopExec] at h
  | succ fuel ih =>
    intro it e c p b it2 e2 c2 p2 he h
    have key : ∀ (ls : Option Frame) (c' : Nat),
        (match loopBodyExec env timeout startT ls us acts e c' p with
          | (false, e1, c1x, p1) => some (false, it, e1, c1x, p1)
          | (true, e1, c1x, p1) =>
            if timeoutHit timeout (env.clock (e1 + c1x) - startT) = true then
              some (true, it, e1, c1x, p1)
            else
              loopExec env timeout startT maxIter cond us acts fuel
                (it + 1) e1 c1x p1) =
          some (b, it2, e2, c2, p2) →
        e2 ≤ k ∨ (b = false ∧ e2 = k + 1) := by
      intro ls c' hh
      have hbd := loopBodyExec_exec_bound env timeout startT ls us k hlt hk
        acts e c' p he
      rcases hb : loopBodyExec env timeout startT ls us acts e c' p with
        ⟨bb, e1, c1x, p1⟩
      rw [hb] at hh hbd
      cases bb with
      | false =>
        simp only [Option.some.injEq, Prod.mk.injEq] at hh
        refine Or.inr ⟨hh.1.symm, ?_⟩
        have h1 : e1 = k + 1 := hbd.2 rfl
        omega
      | true =>
        have hh2 :
            (if timeoutHit timeout (env.clock (e1 + c1x) - startT) = true then
              some (true, it, e1, c1x, p1)
            else
              loopExec env timeout startT maxIter cond us acts fuel
                (it + 1) e1 c1x p1) = some (b, it2, e2, c2, p2) := hh
        by_cases ht2 :
            timeoutHit timeout (env.clock (e1 + c1x) - startT) = true
        · rw [if_pos ht2] at hh2
          simp only [Option.some.injEq, Prod.mk.injEq] at hh2
          have h1 : e1 ≤ k := hbd.1 rfl
          exact Or.inl (by omega)
        · rw [if_neg ht2] at hh2
          exact ih (it + 1) e1 c1x p1 b it2 e2 c2 p2 (hbd.1 rfl) hh2
    simp only [loopExec] at h
    by_cases h1 : maxIterHit maxIter it = true
    · rw [if_pos h1] at h
      simp only [Option.some.injEq, Prod.mk.injEq] at h
      exact Or.inl (by omega)
    rw [if_neg h1] at h
    by_cases h2 : timeoutHit timeout (env.clock (e + c) - startT) = true
    · rw [if_pos h2] at h
      simp only [Option.some.injEq, Prod.mk.injEq] at h
      exact Or.inl (by omega)
    rw [if_neg h2] at h
    cases us with
    | false =>
      simp only [Bool.false_and, Bool.false_eq_true, if_false,
        Bool.and_eq_true, Option.isSome_none] at h
      by_cases hcond : strTruthy cond = true
      · rw [hcond] at h
        simp only [if_true] at h
        cases hshot : env.shot c with
        | none =>
          rw [hshot] at h
          exact key none (c + 1) h
        | some f =>
          rw [hshot] at h
          dsimp only at h
          by_cases hex : env.exitCond f = true
          · rw [hex] at h
            simp only [if_true] at h
            simp only [Option.some.injEq, Prod.mk.injEq] at h
            exact Or.inl (by omega)
          · simp only [Bool.not_eq_true] at hex
            rw [hex] at h
            simp only [Bool.false_eq_true, if_false] at h
            exact key none (c + 1) h
      · simp only [Bool.not_eq_true] at hcond
        rw [hcond] at h
        simp only [Bool.false_eq_true, if_false] at h
        exact key none c h
    | true =>
      simp only [Bool.true_and, if_true] at h
      cases hshot : env.shot c with
      | none =>
        rw [hshot] at h
        simp at h
        exact Or.inl (by omega)
      | some f =>
        rw [hshot] at h
        simp only [Option.isSome_some, Bool.not_false, Bool.false_eq_true,
          if_false] at h
        by_cases hcond : strTruthy cond = true
        · rw [hcond] at h
          simp only [if_true] at h
          by_cases hex : env.exitCond f = true
          · rw [hex] at h
            simp only [Option.isNone_some, Bool.false_eq_true, if_false,
              if_true, Option.some.injEq, Prod.mk.injEq] at h
            exact Or.inl (by omega)
          · simp only [Bool.not_eq_true] at hex
            rw [hex] at h
            simp only [Bool.false_eq_true, if_false] at h
            exact key (some f) (c + 1) h
        · simp only [Bool.not_eq_true] at hcond
          rw [hcond] at h
          simp only [Bool.false_eq_true, if_false] at h
          exact key (some f) (c + 1) h

/-- Claim C10: for a Loop action, when the nested executions before
index k all succeed and the k-th returns False, a terminating run either
exits before ever reaching the k-th nested execution (for instance
because the loop timeout elapsed first), or it returns False immediately
at that failing body action: no remaining body action of that iteration
and no further iteration performs another nested execution (the final
nested-execution counter is exactly k + 1). -/
theorem loop_action_fail_fast (env : LoopEnv) (timeout maxIter : Option Nat)
    (cond : Option String) (us : Bool) (acts : List Unit) (fuel k : Nat)
    (p : Option Frame) (b : Bool) (it2 e2 c2 : Nat) (p2 : Option Frame)
    (hlt : ∀ j, j < k → env.exec j = true) (hk : env.exec k = false)
    (h : loopAction env timeout maxIter cond us acts fuel p =
      some (b, it2, e2, c2, p2)) :
    e2 ≤ k ∨ (b = false ∧ e2 = k + 1) :=
  loopExec_exec_bound env timeout maxIter cond us acts (env.clock 0) k hlt hk
    fuel 0 0 0 p b it2 e2 c2 p2 (Nat.zero_le k) h

/-- Witness for C10: with a two-action body whose fourth nested execution
fails, the loop returns False right after it. -/
theorem loop_action_fail_fast_witness :
    4 ≤ 3 ∨ (false = false ∧ 4 = 3 + 1) :=
  loop_action_fail_fast wLoopEnvF none (some 10) none false [(), ()] 20 3
    none false 1 4 0 none (fun j hj => decide_eq_true hj) (by decide)
    (by decide)

/-- Claim C3 as stated is false: when a state action list contains a
Conditional action with a truthy target state, executing it mid-list
calls change_state, which resets current_action_index to 0 while the
list is still being executed (the outer loop then overwrites it with
i + 1). Starting at index 0 with a plain action followed by such a jump,
the index takes the values 1, 0, 2 - a decrease during one execution of
the list. -/
theorem action_index_monotone_cex :
    (runStateActions cexInst 0
        [TickAction.plain true, TickAction.condJump "B"]).2.2 = [1, 0, 2] ∧
      ¬ List.Chain' (fun x y => x ≤ y)
        (cexInst.current_action_index :: [1, 0, 2]) := by
  constructor
  · decide
  · norm_num [cexInst, List.chain'_cons]

/-- Helper for C3: on a list without conditional state jumps, the trace of
index values recorded while the per-state execution loop runs is
non-decreasing from the starting index. -/
theorem runActionsFrom_trace_mono (now : Rat) :
    ∀ (acts : List TickAction) (i : Nat) (inst : Instance),
      (∀ a ∈ acts, ∀ t, a ≠ TickAction.condJump t) →
      List.Chain' (fun x y => x ≤ y)
        (i :: (runActionsFrom now acts i inst).2.2) := by
  intro acts
  induction acts with
  | nil => intro i inst _; simp [runActionsFrom]
  | cons a rest ih =>
    intro i inst hnj
    cases a with
    | condJump t => exact absurd rfl (hnj _ (List.mem_cons_self _ _) t)
    | plain ok =>
      cases ok with
      | false => simp [runActionsFrom]
      | true =>
        have hrest : ∀ a ∈ rest, ∀ t, a ≠ TickAction.condJump t :=
          fun a ha t => hnj a (List.mem_cons_of_mem _ ha) t
        have h2 := ih (i + 1)
          ({ inst with current_action_index := i + 1 }) hrest
        simp only [runActionsFrom]
        rw [if_pos trivial, List.chain'_cons]
        exact ⟨by omega, h2⟩

/-- Claim C3 (amended): while one state action list executes, provided no
executed action performs a conditional state jump, the recorded values of
current_action_index never decrease; and immediately after every call to
change_state the index equals 0. (A Conditional action with a target
state violates the first part, as the counterexample shows.) -/
theorem action_index_monotone_amended (inst : Instance) (now : Rat)
    (actions : List TickAction) (s : String)
    (hnj : ∀ a ∈ actions, ∀ t, a ≠ TickAction.condJump t) :
    List.Chain' (fun x y => x ≤ y)
      (inst.current_action_index ::
        (runStateActions inst now actions).2.2) ∧
    (change_state inst s now).current_action_index = 0 := by
  constructor
  · have hd : ∀ a ∈ actions.drop inst.current_action_index, ∀ t,
        a ≠ TickAction.condJump t :=
      fun a ha t => hnj a (List.mem_of_mem_drop ha) t
    have h := runActionsFrom_trace_mono now
      (actions.drop inst.current_action_index)
      inst.current_action_index inst hd
    simp only [runStateActions]
    split
    · exact h
    · exact h
  · rfl

/-- Witness for C3: a single plain successful action yields the
non-decreasing trace 0, 1 and change_state resets the index. -/
theorem action_index_monotone_amended_witness :
    List.Chain' (fun x y => x ≤ y)
      (cexInst.current_action_index ::
        (runStateActions cexInst 0 [TickAction.plain true]).2.2) ∧
    (change_state cexInst "B" 0).current_action_index = 0 :=
  action_index_monotone_amended cexInst 0 [TickAction.plain true] "B"
    (by
      intro a ha t
      rw [List.mem_singleton] at ha
      subst ha
      exact fun hcon => TickAction.noConfusion hcon)
